import Mathlib

/-!
Shallow embedding of the Soroban reporting contract
(`src/reporting/src/lib.rs`, crate `reporting`) and verification of the
frozen claims about it.

Modelling conventions:
* `i128` values are modelled as unbounded `Int`; `u32` counters as `Nat`;
  `u64` timestamps as `Nat`.  Overflow of the 128-bit accumulators is
  assumed trapped (the spec, §7(e), mandates a fatal error rather than a
  silent wrap), so additions are modelled exactly.
* Rust `as` casts never trap: `x as u32` on an `i128` keeps the low 32
  bits, and `x as i32` keeps the low 32 bits reinterpreted in two's
  complement.  These casts occur in the source and are modelled exactly
  by `u32_of_i128` / `i32_of_i128` below.
* Rust `i128` division truncates toward zero, which is `Int.tdiv`.
* `Address` is opaque in the source (only cloned and compared), so it is
  modelled as `Nat`.  Soroban `String` fields are Lean `String`s.
* Collaborator calls (`get_split`, `get_all_goals`, `get_all_bills`,
  `get_active_policies`, …) are inputs: each contract function is a pure
  function of the collaborator responses it consumes, plus the ledger
  timestamp where the source reads `env.ledger().timestamp()`, plus the
  instance storage where the source reads or writes it.
-/

namespace Remitwise

/-- Rust cast `x as u32` applied to an `i128` value: low 32 bits
(`4294967296 = 2 ^ 32`). -/
def u32_of_i128 (x : Int) : Nat := (x % 4294967296).toNat

/-- Rust cast `x as i32` applied to an `i128` value: low 32 bits,
reinterpreted as a two's-complement signed 32-bit integer
(`2147483648 = 2 ^ 31`). -/
def i32_of_i128 (x : Int) : Int :=
  if x % 4294967296 < 2147483648 then x % 4294967296
  else x % 4294967296 - 4294967296

/-- `enum Category` from the source. -/
inductive Category where
  | Spending
  | Savings
  | Bills
  | Insurance
  deriving Repr, DecidableEq

/-- `struct HealthScore` from the source. -/
structure HealthScore where
  score : Nat
  savings_score : Nat
  bills_score : Nat
  insurance_score : Nat
  deriving Repr, DecidableEq

/-- `struct CategoryBreakdown` from the source. -/
structure CategoryBreakdown where
  category : Category
  amount : Int
  percentage : Nat
  deriving Repr, DecidableEq

/-- `struct TrendData` from the source (`change_percentage` is an `i32`). -/
structure TrendData where
  current_amount : Int
  previous_amount : Int
  change_amount : Int
  change_percentage : Int
  deriving Repr, DecidableEq

/-- `struct RemittanceSummary` from the source. -/
structure RemittanceSummary where
  total_received : Int
  total_allocated : Int
  category_breakdown : List CategoryBreakdown
  period_start : Nat
  period_end : Nat
  deriving Repr, DecidableEq

/-- `struct SavingsReport` from the source. -/
structure SavingsReport where
  total_goals : Nat
  completed_goals : Nat
  total_target : Int
  total_saved : Int
  completion_percentage : Nat
  period_start : Nat
  period_end : Nat
  deriving Repr, DecidableEq

/-- `struct BillComplianceReport` from the source. -/
structure BillComplianceReport where
  total_bills : Nat
  paid_bills : Nat
  unpaid_bills : Nat
  overdue_bills : Nat
  total_amount : Int
  paid_amount : Int
  unpaid_amount : Int
  compliance_percentage : Nat
  period_start : Nat
  period_end : Nat
  deriving Repr, DecidableEq

/-- `struct InsuranceReport` from the source. -/
structure InsuranceReport where
  active_policies : Nat
  total_coverage : Int
  monthly_premium : Int
  annual_premium : Int
  coverage_to_premium_ratio : Nat
  period_start : Nat
  period_end : Nat
  deriving Repr, DecidableEq

/-- `struct FinancialHealthReport` from the source. -/
structure FinancialHealthReport where
  health_score : HealthScore
  remittance_summary : RemittanceSummary
  savings_report : SavingsReport
  bill_compliance : BillComplianceReport
  insurance_report : InsuranceReport
  generated_at : Nat
  deriving Repr, DecidableEq

/-- `struct SavingsGoal` from the source (collaborator record). -/
structure SavingsGoal where
  id : Nat
  owner : Nat
  name : String
  target_amount : Int
  current_amount : Int
  target_date : Nat
  locked : Bool
  deriving Repr, DecidableEq

/-- `struct Bill` from the source (collaborator record). -/
structure Bill where
  id : Nat
  owner : Nat
  name : String
  amount : Int
  due_date : Nat
  recurring : Bool
  frequency_days : Nat
  paid : Bool
  created_at : Nat
  paid_at : Option Nat
  deriving Repr, DecidableEq

/-- `struct InsurancePolicy` from the source (collaborator record). -/
structure InsurancePolicy where
  id : Nat
  owner : Nat
  name : String
  coverage_type : String
  monthly_premium : Int
  coverage_amount : Int
  active : Bool
  next_payment_date : Nat
  deriving Repr, DecidableEq

/-- The `Map<(Address, u64), FinancialHealthReport>` stored under the
`REPORTS` key, modelled as an association list; `mapSet`/`mapGet` below
model soroban `Map::set` / `Map::get`. -/
abbrev ReportsMap := List ((Nat × Nat) × FinancialHealthReport)

/-- Soroban `Map::set`: replaces the entry for an existing key,
otherwise adds the entry. -/
def mapSet (m : ReportsMap) (k : Nat × Nat) (v : FinancialHealthReport) :
    ReportsMap :=
  match m with
  | [] => [(k, v)]
  | (k₁, v₁) :: rest =>
      if k₁ = k then (k, v) :: rest else (k₁, v₁) :: mapSet rest k v

/-- Soroban `Map::get`: the value stored under the key, if any. -/
def mapGet (m : ReportsMap) (k : Nat × Nat) : Option FinancialHealthReport :=
  match m with
  | [] => none
  | (k₁, v₁) :: rest => if k₁ = k then some v₁ else mapGet rest k

/-- Contract environment: the ledger timestamp and the instance-storage
slots the contract reads and writes (`ADMIN`, `REPORTS`).  `reports` is
`none` until the first `store_report`, mirroring
`get(REPORTS).unwrap_or_else(Map::new)`. -/
structure EnvState where
  timestamp : Nat
  admin : Option Nat
  reports : Option ReportsMap

/-- `get_remittance_summary`: builds the four-category breakdown from the
split-percentage vector and the split-amount vector returned by the
remittance-split collaborator (`Vec::get(i).unwrap_or(0)` is
`List.getD i 0`) and reports both totals as `total_amount`. -/
def get_remittance_summary (split_percentages : List Nat)
    (split_amounts : List Int) (total_amount : Int)
    (period_start period_end : Nat) : RemittanceSummary :=
  let categories : List Category :=
    [.Spending, .Savings, .Bills, .Insurance]
  let breakdown := categories.enum.map (fun p =>
    { category := p.2
      amount := split_amounts.getD p.1 0
      percentage := split_percentages.getD p.1 0 : CategoryBreakdown })
  { total_received := total_amount
    total_allocated := total_amount
    category_breakdown := breakdown
    period_start := period_start
    period_end := period_end }

/-- The accumulator of the loop in `get_savings_report` (and of the
savings part of `calculate_health_score`): running `total_target`,
`total_saved` and `completed_count`. -/
structure SavingsAcc where
  total_target : Int
  total_saved : Int
  completed_count : Nat

/-- One iteration of the goals loop in `get_savings_report`. -/
def savingsStep (acc : SavingsAcc) (goal : SavingsGoal) : SavingsAcc :=
  { total_target := acc.total_target + goal.target_amount
    total_saved := acc.total_saved + goal.current_amount
    completed_count :=
      if goal.current_amount ≥ goal.target_amount then
        acc.completed_count + 1
      else acc.completed_count }

/-- `get_savings_report`: folds the goals returned by
`get_all_goals(user)` and derives the completion percentage
(`((total_saved * 100) / total_target) as u32` when `total_target > 0`,
else `0`). -/
def get_savings_report (goals : List SavingsGoal)
    (period_start period_end : Nat) : SavingsReport :=
  let acc := goals.foldl savingsStep ⟨0, 0, 0⟩
  let completion_percentage :=
    if acc.total_target > 0 then
      u32_of_i128 ((acc.total_saved * 100).tdiv acc.total_target)
    else 0
  { total_goals := goals.length
    completed_goals := acc.completed_count
    total_target := acc.total_target
    total_saved := acc.total_saved
    completion_percentage := completion_percentage
    period_start := period_start
    period_end := period_end }

/-- The accumulator of the bills loop in `get_bill_compliance_report`. -/
structure BillAcc where
  total_bills : Nat
  paid_bills : Nat
  unpaid_bills : Nat
  overdue_bills : Nat
  total_amount : Int
  paid_amount : Int
  unpaid_amount : Int

/-- One iteration of the bills loop in `get_bill_compliance_report`:
skip bills of other owners, skip bills created outside
`[period_start, period_end]`, then count the bill as paid or unpaid and,
when unpaid, as overdue iff `due_date < current_time`. -/
def billStep (user period_start period_end current_time : Nat)
    (acc : BillAcc) (bill : Bill) : BillAcc :=
  if bill.owner ≠ user then acc
  else if bill.created_at < period_start ∨ bill.created_at > period_end then
    acc
  else if bill.paid then
    { acc with
      total_bills := acc.total_bills + 1
      total_amount := acc.total_amount + bill.amount
      paid_bills := acc.paid_bills + 1
      paid_amount := acc.paid_amount + bill.amount }
  else
    { acc with
      total_bills := acc.total_bills + 1
      total_amount := acc.total_amount + bill.amount
      unpaid_bills := acc.unpaid_bills + 1
      unpaid_amount := acc.unpaid_amount + bill.amount
      overdue_bills :=
        if bill.due_date < current_time then acc.overdue_bills + 1
        else acc.overdue_bills }

/-- `get_bill_compliance_report`: folds the system-wide bill list
returned by `get_all_bills()`, with `current_time` the ledger timestamp,
then derives `compliance_percentage = (paid_bills * 100) / total_bills`
when `total_bills > 0`, else `100`. -/
def get_bill_compliance_report (all_bills : List Bill) (user : Nat)
    (period_start period_end current_time : Nat) : BillComplianceReport :=
  let acc := all_bills.foldl
    (billStep user period_start period_end current_time)
    ⟨0, 0, 0, 0, 0, 0, 0⟩
  let compliance_percentage :=
    if acc.total_bills > 0 then acc.paid_bills * 100 / acc.total_bills
    else 100
  { total_bills := acc.total_bills
    paid_bills := acc.paid_bills
    unpaid_bills := acc.unpaid_bills
    overdue_bills := acc.overdue_bills
    total_amount := acc.total_amount
    paid_amount := acc.paid_amount
    unpaid_amount := acc.unpaid_amount
    compliance_percentage := compliance_percentage
    period_start := period_start
    period_end := period_end }

/-- `get_insurance_report`: sums `coverage_amount` over the policies
returned by `get_active_policies(user)`, with `monthly_premium` from
`get_total_monthly_premium(user)`; `annual_premium = monthly_premium * 12`
and `coverage_to_premium_ratio = ((total_coverage * 100) / annual_premium)
as u32` when `annual_premium > 0`, else `0`. -/
def get_insurance_report (policies : List InsurancePolicy)
    (monthly_premium : Int) (period_start period_end : Nat) :
    InsuranceReport :=
  let total_coverage :=
    policies.foldl (fun acc policy => acc + policy.coverage_amount) 0
  let annual_premium := monthly_premium * 12
  let coverage_to_premium_ratio :=
    if annual_premium > 0 then
      u32_of_i128 ((total_coverage * 100).tdiv annual_premium)
    else 0
  { active_policies := policies.length
    total_coverage := total_coverage
    monthly_premium := monthly_premium
    annual_premium := annual_premium
    coverage_to_premium_ratio := coverage_to_premium_ratio
    period_start := period_start
    period_end := period_end }

/-- `calculate_health_score`: savings sub-score from the goals returned
by `get_all_goals(user)` (`progress = ((total_saved * 100) /
total_target) as u32`; `40` when `progress > 100`, else
`progress * 40 / 100`; default `20` when `total_target` is not positive),
bills sub-score from `get_unpaid_bills(user)` (`40` when empty, `35` when
none overdue at `current_time`, else `20`), insurance sub-score from
`get_active_policies(user)` (`20` when nonempty, else `0`); total is
their sum. -/
def calculate_health_score (goals : List SavingsGoal)
    (unpaid_bills : List Bill) (policies : List InsurancePolicy)
    (current_time : Nat) : HealthScore :=
  let acc := goals.foldl savingsStep ⟨0, 0, 0⟩
  let savings_score :=
    if acc.total_target > 0 then
      let progress := u32_of_i128 ((acc.total_saved * 100).tdiv acc.total_target)
      if progress > 100 then 40 else progress * 40 / 100
    else 20
  let bills_score :=
    if unpaid_bills.isEmpty then 40
    else
      let overdue_count :=
        (unpaid_bills.filter (fun b => b.due_date < current_time)).length
      if overdue_count = 0 then 35 else 20
  let insurance_score := if ¬ policies.isEmpty then 20 else 0
  let total_score := savings_score + bills_score + insurance_score
  { score := total_score
    savings_score := savings_score
    bills_score := bills_score
    insurance_score := insurance_score }

/-- `get_trend_analysis`: pure of the two amounts; the `_env` and `_user`
parameters of the source are taken but unused.  `change_percentage =
((change_amount * 100) / previous_amount) as i32` when
`previous_amount > 0`, else `100` when `current_amount > 0`, else `0`. -/
def get_trend_analysis (_env : EnvState) (_user : Nat)
    (current_amount previous_amount : Int) : TrendData :=
  let change_amount := current_amount - previous_amount
  let change_percentage :=
    if previous_amount > 0 then
      i32_of_i128 ((change_amount * 100).tdiv previous_amount)
    else if current_amount > 0 then 100
    else 0
  { current_amount := current_amount
    previous_amount := previous_amount
    change_amount := change_amount
    change_percentage := change_percentage }

/-- `store_report`: reads the `REPORTS` map (empty when absent), sets
the entry keyed `(user, period_key)` to the report, and writes the map
back. -/
def store_report (env : EnvState) (user : Nat)
    (report : FinancialHealthReport) (period_key : Nat) : EnvState :=
  let reports := env.reports.getD []
  { env with reports := some (mapSet reports (user, period_key) report) }

/-- `get_stored_report`: reads the `REPORTS` map (empty when absent) and
returns the entry keyed `(user, period_key)`, if any. -/
def get_stored_report (env : EnvState) (user : Nat) (period_key : Nat) :
    Option FinancialHealthReport :=
  mapGet (env.reports.getD []) (user, period_key)

/-! ## Helper lemmas -/

theorem u32_of_i128_of_bounded (x : Int) (h0 : 0 ≤ x) (h1 : x < 4294967296) :
    (u32_of_i128 x : Int) = x := by
  unfold u32_of_i128
  omega

theorem i32_of_i128_of_bounded (x : Int) (h0 : -2147483648 ≤ x)
    (h1 : x < 2147483648) : i32_of_i128 x = x := by
  unfold i32_of_i128
  split <;> omega

theorem savingsStep_completed_le (acc : SavingsAcc) (goal : SavingsGoal) :
    (savingsStep acc goal).completed_count ≤ acc.completed_count + 1 := by
  unfold savingsStep
  split <;> simp

theorem savings_foldl_completed_le (goals : List SavingsGoal)
    (acc : SavingsAcc) :
    (goals.foldl savingsStep acc).completed_count ≤
      acc.completed_count + goals.length := by
  induction goals generalizing acc with
  | nil => simp
  | cons g gs ih =>
      have h₁ := ih (savingsStep acc g)
      have h₂ := savingsStep_completed_le acc g
      simp only [List.foldl_cons, List.length_cons]
      omega

theorem tdiv_mul_hundred_bounds (s t : Int) (ht : 0 < t) (h0 : 0 ≤ s)
    (h1 : s ≤ t) : 0 ≤ (s * 100).tdiv t ∧ (s * 100).tdiv t ≤ 100 := by
  have hnn : (0 : Int) ≤ s * 100 := by positivity
  rw [Int.tdiv_eq_ediv hnn ht.le]
  refine ⟨Int.ediv_nonneg hnn ht.le, ?_⟩
  have hle : s * 100 ≤ t * 100 := by nlinarith
  calc s * 100 / t ≤ t * 100 / t := Int.ediv_le_ediv ht hle
    _ = 100 := by
        rw [mul_comm]
        exact Int.mul_ediv_cancel 100 ht.ne'

/-! ## Claims -/

/-- C1 counterexample: a single goal with `target_amount = 100` and
`current_amount = 200` yields `total_target = 100 > 0` but
`completion_percentage = 200 ∉ [0, 100]`, refuting the claimed bound. -/
theorem C1_counterexample :
    0 < (get_savings_report [⟨0, 0, "", 100, 200, 0, false⟩] 0 0).total_target ∧
    ¬ (get_savings_report [⟨0, 0, "", 100, 200, 0, false⟩] 0 0).completion_percentage ≤ 100 := by
  decide

/-- C1 (amended): for every goals list the SavingsReport satisfies
`completed_goals ≤ total_goals`; `completion_percentage = 0` when
`total_target = 0`; and when `total_target > 0` the completion
percentage lies in `[0, 100]` provided `0 ≤ total_saved ≤ total_target`
(the source computes `((total_saved * 100) / total_target) as u32`
without clamping, so it exceeds 100 as soon as
`total_saved > total_target`). -/
theorem C1_savings_report_invariants (goals : List SavingsGoal)
    (period_start period_end : Nat) :
    ∀ r, r = get_savings_report goals period_start period_end →
      r.completed_goals ≤ r.total_goals ∧
      (r.total_target = 0 → r.completion_percentage = 0) ∧
      (0 < r.total_target → 0 ≤ r.total_saved →
        r.total_saved ≤ r.total_target → r.completion_percentage ≤ 100) := by
  intro r hr
  subst hr
  unfold get_savings_report
  refine ⟨?_, ?_, ?_⟩
  · simpa using savings_foldl_completed_le goals ⟨0, 0, 0⟩
  · intro h0
    simp only at h0 ⊢
    rw [if_neg (by omega)]
  · intro hpos hsn hst
    simp only at hpos hsn hst ⊢
    rw [if_pos hpos]
    obtain ⟨hq0, hq1⟩ :=
      tdiv_mul_hundred_bounds _ _ hpos hsn hst
    have := u32_of_i128_of_bounded
      (((goals.foldl savingsStep ⟨0, 0, 0⟩).total_saved * 100).tdiv
        (goals.foldl savingsStep ⟨0, 0, 0⟩).total_target) hq0 (by omega)
    omega

/-- C1 witness: the amended theorem applied to one goal with
`target_amount = 100`, `current_amount = 50`. -/
theorem C1_savings_report_invariants_witness :
    (get_savings_report [⟨0, 0, "", 100, 50, 0, false⟩] 0 0).completed_goals ≤
      (get_savings_report [⟨0, 0, "", 100, 50, 0, false⟩] 0 0).total_goals ∧
    (get_savings_report [⟨0, 0, "", 100, 50, 0, false⟩] 0 0).completion_percentage ≤ 100 := by
  obtain ⟨h₁, h₂, h₃⟩ :=
    C1_savings_report_invariants [⟨0, 0, "", 100, 50, 0, false⟩] 0 0 _ rfl
  exact ⟨h₁, h₃ (by decide) (by decide) (by decide)⟩

/-- C2: for every combination of collaborator responses and ledger time,
the HealthScore satisfies `score = savings_score + bills_score +
insurance_score`, `savings_score ∈ [0, 40]`,
`bills_score ∈ \x7b20, 35, 40\x7d`, `insurance_score ∈ \x7b0, 20\x7d`,
hence `score ∈ [0, 100]`. -/
theorem C2_health_score_bounds (goals : List SavingsGoal)
    (unpaid_bills : List Bill) (policies : List InsurancePolicy)
    (current_time : Nat) :
    ∀ h, h = calculate_health_score goals unpaid_bills policies current_time →
      h.score = h.savings_score + h.bills_score + h.insurance_score ∧
      h.savings_score ≤ 40 ∧
      (h.bills_score = 20 ∨ h.bills_score = 35 ∨ h.bills_score = 40) ∧
      (h.insurance_score = 0 ∨ h.insurance_score = 20) ∧
      h.score ≤ 100 := by
  intro h hh
  subst hh
  unfold calculate_health_score
  dsimp only
  refine ⟨rfl, ?_, ?_, ?_, ?_⟩ <;> split_ifs <;> omega

/-- C2 witness: the theorem applied to empty collaborator responses at
ledger time 0 (score `20 + 40 + 0 = 60`). -/
theorem C2_health_score_bounds_witness :
    (calculate_health_score [] [] [] 0).score ≤ 100 ∧
    (calculate_health_score [] [] [] 0).score =
      (calculate_health_score [] [] [] 0).savings_score +
      (calculate_health_score [] [] [] 0).bills_score +
      (calculate_health_score [] [] [] 0).insurance_score := by
  obtain ⟨h₁, _, _, _, h₅⟩ := C2_health_score_bounds [] [] [] 0 _ rfl
  exact ⟨h₅, h₁⟩

/-- C6 counterexample: one goal with `target_amount = 100` and
`current_amount = -100` gives `total_target = 100 > 0` and the claimed
`progress = floor(total_saved * 100 / total_target) = -100`, which is
not `> 100`, so the claim predicts
`savings_score = floor(-100 * 40 / 100) = -40`; the code's
`as u32` cast instead makes `progress = 4294967196 > 100`, so the code
returns `savings_score = 40`. -/
theorem C6_counterexample :
    ([⟨0, 0, "", 100, -100, 0, false⟩].foldl savingsStep
      (⟨0, 0, 0⟩ : SavingsAcc)).total_target = 100 ∧
    ([⟨0, 0, "", 100, -100, 0, false⟩].foldl savingsStep
      (⟨0, 0, 0⟩ : SavingsAcc)).total_saved = -100 ∧
    ((-100 : Int) * 100).tdiv 100 = -100 ∧
    ¬ ((-100 : Int) > 100) ∧
    ((-100 : Int) * 40).tdiv 100 = -40 ∧
    (calculate_health_score [⟨0, 0, "", 100, -100, 0, false⟩] [] [] 0).savings_score = 40 ∧
    ((40 : Int) ≠ -40) := by
  decide

/-- C6 (amended): in `calculate_health_score`, with `total_target` and
`total_saved` accumulated over the goals and
`q = total_saved * 100 / total_target` (truncated division): if
`total_target = 0` then `savings_score = 20`; if `total_target > 0` and
`q` lies in `[0, 2^32)` (so the `as u32` cast is the identity; outside
that range the cast wraps `q` modulo `2^32` first) then
`savings_score = 40` when `q > 100` and `savings_score = q * 40 / 100`
otherwise. -/
theorem C6_savings_score (goals : List SavingsGoal)
    (unpaid_bills : List Bill) (policies : List InsurancePolicy)
    (current_time : Nat) :
    ∀ acc h, acc = goals.foldl savingsStep ⟨0, 0, 0⟩ →
      h = calculate_health_score goals unpaid_bills policies current_time →
      (acc.total_target = 0 → h.savings_score = 20) ∧
      (0 < acc.total_target →
        0 ≤ (acc.total_saved * 100).tdiv acc.total_target →
        (acc.total_saved * 100).tdiv acc.total_target < 4294967296 →
        ((100 < (acc.total_saved * 100).tdiv acc.total_target →
            h.savings_score = 40) ∧
         ((acc.total_saved * 100).tdiv acc.total_target ≤ 100 →
            (h.savings_score : Int) =
              ((acc.total_saved * 100).tdiv acc.total_target * 40).tdiv 100))) := by
  intro acc h hacc hh
  subst hacc hh
  unfold calculate_health_score
  dsimp only
  constructor
  · intro h0
    rw [if_neg (by omega)]
  · intro hpos hq0 hq1
    rw [if_pos hpos]
    have hcast := u32_of_i128_of_bounded _ hq0 hq1
    constructor
    · intro hgt
      rw [if_pos (by omega)]
    · intro hle
      rw [if_neg (by omega)]
      set q := ((goals.foldl savingsStep ⟨0, 0, 0⟩).total_saved * 100).tdiv
        (goals.foldl savingsStep ⟨0, 0, 0⟩).total_target with hq
      have hqn : (u32_of_i128 q : Int) = q := hcast
      have : ((u32_of_i128 q * 40 / 100 : Nat) : Int) =
          ((u32_of_i128 q * 40 : Nat) : Int).tdiv ((100 : Nat) : Int) :=
        Int.ofNat_tdiv _ _
      rw [this]
      push_cast
      rw [hqn]

/-- C6 witness: the amended theorem applied to one goal with
`target_amount = 100`, `current_amount = 50` (progress 50, savings score
`50 * 40 / 100 = 20`). -/
theorem C6_savings_score_witness :
    ((calculate_health_score [⟨0, 0, "", 100, 50, 0, false⟩] [] [] 0).savings_score : Int) =
      (((50 : Int) * 100).tdiv 100 * 40).tdiv 100 := by
  obtain ⟨-, h⟩ :=
    C6_savings_score [⟨0, 0, "", 100, 50, 0, false⟩] [] [] 0 _ _ rfl rfl
  obtain ⟨-, h₂⟩ := h (by decide) (by decide) (by decide)
  exact h₂ (by decide)

/-- C3 counterexample: at `previous = 1`, `current = 21474838` the
truncated quotient `change_amount * 100 / previous = 2147483700`
exceeds `i32::MAX`, and the code's `as i32` cast wraps it to
`-2147483596`, so `change_percentage` is not the quotient the claim
states. -/
theorem C3_counterexample :
    (0 : Int) < 1 ∧
    ((21474838 - 1 : Int) * 100).tdiv 1 = 2147483700 ∧
    (get_trend_analysis ⟨0, none, none⟩ 0 21474838 1).change_percentage =
      -2147483596 ∧
    ((-2147483596 : Int) ≠ 2147483700) := by
  decide

/-- C3 (amended): `get_trend_analysis` returns
`change_amount = current - previous`; when `previous > 0` and the
truncated quotient `change_amount * 100 / previous` lies in the signed
32-bit range, `change_percentage` equals that quotient (outside that
range the `as i32` cast wraps it modulo `2^32`); when `previous ≤ 0`,
`change_percentage = 100` if `current > 0`, else `0` (so the spec's
three examples hold: `(100, 150) ↦ (50, 50)`, `(0, 50) ↦ 100`,
`(0, 0) ↦ 0`). -/
theorem C3_trend_analysis (env : EnvState) (user : Nat)
    (current previous : Int) :
    ∀ t, t = get_trend_analysis env user current previous →
      t.current_amount = current ∧
      t.previous_amount = previous ∧
      t.change_amount = current - previous ∧
      (0 < previous →
        -2147483648 ≤ ((current - previous) * 100).tdiv previous →
        ((current - previous) * 100).tdiv previous < 2147483648 →
        t.change_percentage = ((current - previous) * 100).tdiv previous) ∧
      (previous ≤ 0 → 0 < current → t.change_percentage = 100) ∧
      (previous ≤ 0 → current ≤ 0 → t.change_percentage = 0) := by
  intro t ht
  subst ht
  unfold get_trend_analysis
  dsimp only
  refine ⟨rfl, rfl, rfl, ?_, ?_, ?_⟩
  · intro hpos hlo hhi
    rw [if_pos hpos]
    exact i32_of_i128_of_bounded _ hlo hhi
  · intro hle hcur
    rw [if_neg (by omega), if_pos hcur]
  · intro hle hcur
    rw [if_neg (by omega), if_neg (by omega)]

/-- C3 witness: the amended theorem applied at the spec's three example
pairs. -/
theorem C3_trend_analysis_witness :
    (get_trend_analysis ⟨0, none, none⟩ 0 150 100).change_amount = 50 ∧
    (get_trend_analysis ⟨0, none, none⟩ 0 150 100).change_percentage = 50 ∧
    (get_trend_analysis ⟨0, none, none⟩ 0 50 0).change_percentage = 100 ∧
    (get_trend_analysis ⟨0, none, none⟩ 0 0 0).change_percentage = 0 := by
  obtain ⟨-, -, ha, hb, -, -⟩ :=
    C3_trend_analysis ⟨0, none, none⟩ 0 150 100 _ rfl
  obtain ⟨-, -, -, -, hc, -⟩ :=
    C3_trend_analysis ⟨0, none, none⟩ 0 50 0 _ rfl
  obtain ⟨-, -, -, -, -, hd⟩ :=
    C3_trend_analysis ⟨0, none, none⟩ 0 0 0 _ rfl
  refine ⟨ha, ?_, hc (by decide) (by decide), hd (by decide) (by decide)⟩
  have := hb (by decide) (by decide) (by decide)
  rw [this]
  decide

/-- C10: `get_trend_analysis` is a pure function of its two amount
arguments: the user address and the entire contract environment (ledger
timestamp, admin, stored reports) have no influence on the returned
TrendData. -/
theorem C10_trend_analysis_pure (env₁ env₂ : EnvState) (user₁ user₂ : Nat)
    (current previous : Int) :
    get_trend_analysis env₁ user₁ current previous =
      get_trend_analysis env₂ user₂ current previous := rfl

/-- The filter the spec describes for bill compliance: keep a bill iff
it is owned by the queried user and created inside
`[period_start, period_end]`, both ends inclusive. -/
def billCounted (user period_start period_end : Nat) (b : Bill) : Bool :=
  decide (b.owner = user ∧ period_start ≤ b.created_at ∧
    b.created_at ≤ period_end)

theorem billStep_not_counted (user ps pe now : Nat) (acc : BillAcc)
    (b : Bill) (h : billCounted user ps pe b = false) :
    billStep user ps pe now acc b = acc := by
  unfold billCounted at h
  unfold billStep
  by_cases h₁ : b.owner = user
  · rw [if_neg (by simp [h₁])]
    have h₂ : ¬ (ps ≤ b.created_at ∧ b.created_at ≤ pe) := by
      intro hc
      simp [h₁, hc] at h
    rw [if_pos (by omega)]
  · rw [if_pos h₁]

theorem billStep_total_bills (user ps pe now : Nat) (acc : BillAcc)
    (b : Bill) (h : billCounted user ps pe b = true) :
    (billStep user ps pe now acc b).total_bills = acc.total_bills + 1 := by
  unfold billCounted at h
  simp only [decide_eq_true_eq] at h
  unfold billStep
  rw [if_neg (by simp [h.1]), if_neg (by omega)]
  by_cases hp : b.paid
  · rw [if_pos hp]
  · rw [if_neg hp]

theorem billStep_invariants (user ps pe now : Nat) (acc : BillAcc)
    (b : Bill)
    (h₁ : acc.paid_bills + acc.unpaid_bills = acc.total_bills)
    (h₂ : acc.overdue_bills ≤ acc.unpaid_bills)
    (h₃ : acc.paid_amount + acc.unpaid_amount = acc.total_amount) :
    ∀ a, a = billStep user ps pe now acc b →
      a.paid_bills + a.unpaid_bills = a.total_bills ∧
      a.overdue_bills ≤ a.unpaid_bills ∧
      a.paid_amount + a.unpaid_amount = a.total_amount := by
  intro a ha
  subst ha
  unfold billStep
  split_ifs <;> refine ⟨?_, ?_, ?_⟩ <;> dsimp only <;> omega

theorem bill_foldl_invariants (user ps pe now : Nat) (bills : List Bill) :
    ∀ acc : BillAcc,
      acc.paid_bills + acc.unpaid_bills = acc.total_bills →
      acc.overdue_bills ≤ acc.unpaid_bills →
      acc.paid_amount + acc.unpaid_amount = acc.total_amount →
      ∀ a, a = bills.foldl (billStep user ps pe now) acc →
        a.paid_bills + a.unpaid_bills = a.total_bills ∧
        a.overdue_bills ≤ a.unpaid_bills ∧
        a.paid_amount + a.unpaid_amount = a.total_amount := by
  induction bills with
  | nil =>
      intro acc h₁ h₂ h₃ a ha
      subst ha
      exact ⟨h₁, h₂, h₃⟩
  | cons b bs ih =>
      intro acc h₁ h₂ h₃ a ha
      obtain ⟨g₁, g₂, g₃⟩ := billStep_invariants user ps pe now acc b h₁ h₂ h₃ _ rfl
      exact ih (billStep user ps pe now acc b) g₁ g₂ g₃ a ha

theorem bill_foldl_filter (user ps pe now : Nat) (bills : List Bill) :
    ∀ acc, bills.foldl (billStep user ps pe now) acc =
      (bills.filter (billCounted user ps pe)).foldl
        (billStep user ps pe now) acc := by
  induction bills with
  | nil => intro acc; rfl
  | cons b bs ih =>
      intro acc
      by_cases hb : billCounted user ps pe b = true
      · simp only [List.foldl_cons, List.filter_cons, hb, if_true]
        exact ih _
      · have hb' : billCounted user ps pe b = false := by
          simpa using hb
        simp only [List.foldl_cons, List.filter_cons, hb']
        rw [billStep_not_counted user ps pe now acc b hb']
        simpa using ih acc

theorem bill_foldl_total_bills (user ps pe now : Nat) (bills : List Bill) :
    ∀ acc, (bills.foldl (billStep user ps pe now) acc).total_bills =
      acc.total_bills + (bills.filter (billCounted user ps pe)).length := by
  induction bills with
  | nil => intro acc; simp
  | cons b bs ih =>
      intro acc
      by_cases hb : billCounted user ps pe b = true
      · simp only [List.foldl_cons, List.filter_cons, hb, if_true,
          List.length_cons]
        rw [ih]
        rw [billStep_total_bills user ps pe now acc b hb]
        omega
      · have hb' : billCounted user ps pe b = false := by
          simpa using hb
        simp only [List.foldl_cons, List.filter_cons, hb']
        rw [billStep_not_counted user ps pe now acc b hb']
        simpa using ih acc

/-- C4: for every bill list, owner and period, the BillComplianceReport
satisfies `paid_bills + unpaid_bills = total_bills`,
`overdue_bills ≤ unpaid_bills`,
`paid_amount + unpaid_amount = total_amount`,
`compliance_percentage = 100` when `total_bills = 0`, and
`compliance_percentage = paid_bills * 100 / total_bills` when
`total_bills > 0`. -/
theorem C4_bill_compliance_invariants (all_bills : List Bill)
    (user period_start period_end current_time : Nat) :
    ∀ r, r = get_bill_compliance_report all_bills user period_start
        period_end current_time →
      r.paid_bills + r.unpaid_bills = r.total_bills ∧
      r.overdue_bills ≤ r.unpaid_bills ∧
      r.paid_amount + r.unpaid_amount = r.total_amount ∧
      (r.total_bills = 0 → r.compliance_percentage = 100) ∧
      (0 < r.total_bills →
        r.compliance_percentage = r.paid_bills * 100 / r.total_bills) := by
  intro r hr
  subst hr
  unfold get_bill_compliance_report
  dsimp only
  obtain ⟨g₁, g₂, g₃⟩ := bill_foldl_invariants user period_start period_end
    current_time all_bills ⟨0, 0, 0, 0, 0, 0, 0⟩ rfl (le_refl 0) rfl _ rfl
  refine ⟨g₁, g₂, g₃, ?_, ?_⟩
  · intro h0
    rw [if_neg (by omega)]
  · intro hpos
    rw [if_pos hpos]

/-- C4 witness: the theorem applied to two bills of user 0 created at
time 5 inside the period `[0, 10]`, one paid and one unpaid overdue. -/
theorem C4_bill_compliance_invariants_witness :
    (get_bill_compliance_report
        [⟨0, 0, "", 30, 1, false, 0, true, 5, some 1⟩,
         ⟨1, 0, "", 70, 1, false, 0, false, 5, none⟩] 0 0 10 2).paid_bills +
      (get_bill_compliance_report
        [⟨0, 0, "", 30, 1, false, 0, true, 5, some 1⟩,
         ⟨1, 0, "", 70, 1, false, 0, false, 5, none⟩] 0 0 10 2).unpaid_bills =
      (get_bill_compliance_report
        [⟨0, 0, "", 30, 1, false, 0, true, 5, some 1⟩,
         ⟨1, 0, "", 70, 1, false, 0, false, 5, none⟩] 0 0 10 2).total_bills ∧
    (get_bill_compliance_report
        [⟨0, 0, "", 30, 1, false, 0, true, 5, some 1⟩,
         ⟨1, 0, "", 70, 1, false, 0, false, 5, none⟩] 0 0 10 2).compliance_percentage =
      (get_bill_compliance_report
        [⟨0, 0, "", 30, 1, false, 0, true, 5, some 1⟩,
         ⟨1, 0, "", 70, 1, false, 0, false, 5, none⟩] 0 0 10 2).paid_bills * 100 /
      (get_bill_compliance_report
        [⟨0, 0, "", 30, 1, false, 0, true, 5, some 1⟩,
         ⟨1, 0, "", 70, 1, false, 0, false, 5, none⟩] 0 0 10 2).total_bills := by
  obtain ⟨h₁, -, -, -, h₅⟩ := C4_bill_compliance_invariants
    [⟨0, 0, "", 30, 1, false, 0, true, 5, some 1⟩,
     ⟨1, 0, "", 70, 1, false, 0, false, 5, none⟩] 0 0 10 2 _ rfl
  exact ⟨h₁, h₅ (by decide)⟩

/-- C5: a bill from the system-wide list is counted iff its owner is the
queried user and `period_start ≤ created_at ≤ period_end` (both ends
inclusive): the report over the full list equals the report over the
filtered list, and `total_bills` is exactly the number of bills passing
that filter, so a bill outside the window contributes to no count and no
amount. -/
theorem C5_bill_period_filter (all_bills : List Bill)
    (user period_start period_end current_time : Nat) :
    get_bill_compliance_report all_bills user period_start period_end
        current_time =
      get_bill_compliance_report
        (all_bills.filter (billCounted user period_start period_end))
        user period_start period_end current_time ∧
    (get_bill_compliance_report all_bills user period_start period_end
        current_time).total_bills =
      (all_bills.filter (billCounted user period_start period_end)).length := by
  constructor
  · unfold get_bill_compliance_report
    rw [bill_foldl_filter user period_start period_end current_time all_bills]
  · unfold get_bill_compliance_report
    dsimp only
    rw [bill_foldl_total_bills user period_start period_end current_time
      all_bills]
    dsimp only
    omega

/-- C7 counterexample: one active policy with `coverage_amount = -12`
and `monthly_premium = 1` gives `annual_premium = 12 > 0` and the
claimed ratio `floor(total_coverage * 100 / annual_premium) = -100`,
but the code's `as u32` cast wraps it to `4294967196`. -/
theorem C7_counterexample :
    (get_insurance_report [⟨0, 0, "", "", 0, -12, true, 0⟩] 1 0 0).total_coverage = -12 ∧
    (get_insurance_report [⟨0, 0, "", "", 0, -12, true, 0⟩] 1 0 0).annual_premium = 12 ∧
    ((-12 : Int) * 100).tdiv 12 = -100 ∧
    (get_insurance_report [⟨0, 0, "", "", 0, -12, true, 0⟩] 1 0 0).coverage_to_premium_ratio =
      4294967196 ∧
    ((4294967196 : Int) ≠ -100) := by
  decide

/-- C7 (amended): `get_insurance_report` returns
`annual_premium = monthly_premium * 12`;
`coverage_to_premium_ratio = 0` whenever `annual_premium ≤ 0` (in
particular when `annual_premium = 0`); when `annual_premium > 0` and the
truncated quotient `total_coverage * 100 / annual_premium` lies in
`[0, 2^32)` the ratio equals that quotient (outside that range the
`as u32` cast wraps it modulo `2^32`); and with 0 active policies
`calculate_health_score` returns `insurance_score = 0`. -/
theorem C7_insurance_report (policies : List InsurancePolicy)
    (monthly_premium : Int) (period_start period_end : Nat)
    (goals : List SavingsGoal) (unpaid_bills : List Bill)
    (current_time : Nat) :
    ∀ r, r = get_insurance_report policies monthly_premium period_start
        period_end →
      r.annual_premium = monthly_premium * 12 ∧
      (r.annual_premium ≤ 0 → r.coverage_to_premium_ratio = 0) ∧
      (0 < r.annual_premium →
        0 ≤ (r.total_coverage * 100).tdiv r.annual_premium →
        (r.total_coverage * 100).tdiv r.annual_premium < 4294967296 →
        (r.coverage_to_premium_ratio : Int) =
          (r.total_coverage * 100).tdiv r.annual_premium) ∧
      (policies = [] →
        (calculate_health_score goals unpaid_bills policies
          current_time).insurance_score = 0) := by
  intro r hr
  subst hr
  unfold get_insurance_report
  dsimp only
  refine ⟨rfl, ?_, ?_, ?_⟩
  · intro h0
    rw [if_neg (by omega)]
  · intro hpos hq0 hq1
    rw [if_pos hpos]
    exact u32_of_i128_of_bounded _ hq0 hq1
  · intro hp
    subst hp
    simp [calculate_health_score]

/-- C7 witness: the amended theorem applied to no policies and zero
premium (`annual_premium = 0`, ratio 0, insurance score 0). -/
theorem C7_insurance_report_witness :
    (get_insurance_report [] 0 0 0).annual_premium = 0 ∧
    (get_insurance_report [] 0 0 0).coverage_to_premium_ratio = 0 ∧
    (calculate_health_score [] [] [] 0).insurance_score = 0 := by
  obtain ⟨h₁, h₂, -, h₄⟩ := C7_insurance_report [] 0 0 0 [] [] 0 _ rfl
  exact ⟨h₁, h₂ (by decide), h₄ rfl⟩

/-- C8: `get_remittance_summary` returns a breakdown of length exactly 4
in the fixed order Spending, Savings, Bills, Insurance, entry `i` taking
its amount and percentage from index `i` of the collaborator vectors
with a default of 0 when the vector is too short (`List.getD i 0`), and
`total_received = total_allocated = total_amount`. -/
theorem C8_remittance_summary (split_percentages : List Nat)
    (split_amounts : List Int) (total_amount : Int)
    (period_start period_end : Nat) :
    ∀ s, s = get_remittance_summary split_percentages split_amounts
        total_amount period_start period_end →
      s.category_breakdown.length = 4 ∧
      s.category_breakdown =
        [⟨Category.Spending, split_amounts.getD 0 0, split_percentages.getD 0 0⟩,
         ⟨Category.Savings, split_amounts.getD 1 0, split_percentages.getD 1 0⟩,
         ⟨Category.Bills, split_amounts.getD 2 0, split_percentages.getD 2 0⟩,
         ⟨Category.Insurance, split_amounts.getD 3 0, split_percentages.getD 3 0⟩] ∧
      s.total_received = total_amount ∧
      s.total_allocated = total_amount := by
  intro s hs
  subst hs
  unfold get_remittance_summary
  exact ⟨rfl, rfl, rfl, rfl⟩

/-- C8 witness: the theorem applied to vectors shorter than 4
(percentages `[30, 20]`, amounts `[300]`): the missing entries default
to 0. -/
theorem C8_remittance_summary_witness :
    (get_remittance_summary [30, 20] [300] 1000 0 9).category_breakdown =
      [⟨Category.Spending, 300, 30⟩, ⟨Category.Savings, 0, 20⟩,
       ⟨Category.Bills, 0, 0⟩, ⟨Category.Insurance, 0, 0⟩] ∧
    (get_remittance_summary [30, 20] [300] 1000 0 9).total_received = 1000 ∧
    (get_remittance_summary [30, 20] [300] 1000 0 9).total_allocated = 1000 := by
  obtain ⟨-, h₂, h₃, h₄⟩ := C8_remittance_summary [30, 20] [300] 1000 0 9 _ rfl
  refine ⟨?_, h₃, h₄⟩
  rw [h₂]
  rfl

theorem mapGet_mapSet_same (m : ReportsMap) (k : Nat × Nat)
    (v : FinancialHealthReport) : mapGet (mapSet m k v) k = some v := by
  induction m with
  | nil => simp [mapSet, mapGet]
  | cons e rest ih =>
      obtain ⟨k₁, v₁⟩ := e
      unfold mapSet
      by_cases h : k₁ = k
      · rw [if_pos h]
        simp [mapGet]
      · rw [if_neg h]
        unfold mapGet
        rw [if_neg h]
        exact ih

theorem mapGet_mapSet_other (m : ReportsMap) (k k₀ : Nat × Nat)
    (v : FinancialHealthReport) (h : k₀ ≠ k) :
    mapGet (mapSet m k₀ v) k = mapGet m k := by
  induction m with
  | nil => simp [mapSet, mapGet, h]
  | cons e rest ih =>
      obtain ⟨k₁, v₁⟩ := e
      unfold mapSet
      by_cases h₁ : k₁ = k₀
      · rw [if_pos h₁]
        unfold mapGet
        rw [if_neg h, if_neg (h₁ ▸ h)]
      · rw [if_neg h₁]
        unfold mapGet
        by_cases h₂ : k₁ = k
        · rw [if_pos h₂, if_pos h₂]
        · rw [if_neg h₂, if_neg h₂]
          exact ih

theorem stored_report_foldl_none (user period_key : Nat)
    (writes : List (Nat × Nat × FinancialHealthReport))
    (hw : ∀ w ∈ writes, (w.1, w.2.1) ≠ (user, period_key)) :
    ∀ st : EnvState, get_stored_report st user period_key = none →
      get_stored_report
        (writes.foldl (fun s w => store_report s w.1 w.2.2 w.2.1) st)
        user period_key = none := by
  induction writes with
  | nil =>
      intro st hst
      exact hst
  | cons w ws ih =>
      intro st hst
      simp only [List.foldl_cons]
      apply ih (fun x hx => hw x (List.mem_cons_of_mem w hx))
      unfold get_stored_report at hst
      unfold get_stored_report store_report
      dsimp only [Option.getD]
      rw [mapGet_mapSet_other _ _ _ _ (hw w (List.mem_cons_self w ws))]
      exact hst

/-- C9: storing twice under the same `(owner, period_key)` is
last-write-wins (the second report is returned, no merge), and
`get_stored_report` for a key that was never written returns `none` —
an explicit absent result, never a default report — whatever stores
were made under other keys starting from the uninitialized state. -/
theorem C9_report_store (env : EnvState) (user period_key : Nat)
    (r₁ r₂ : FinancialHealthReport) :
    get_stored_report
        (store_report (store_report env user r₁ period_key) user r₂
          period_key) user period_key = some r₂ ∧
    (∀ env₀ : EnvState, env₀.reports = none →
      ∀ writes : List (Nat × Nat × FinancialHealthReport),
        (∀ w ∈ writes, (w.1, w.2.1) ≠ (user, period_key)) →
        get_stored_report
          (writes.foldl (fun s w => store_report s w.1 w.2.2 w.2.1) env₀)
          user period_key = none) := by
  constructor
  · unfold store_report get_stored_report
    dsimp only [Option.getD]
    exact mapGet_mapSet_same _ _ _
  · intro env₀ h₀ writes hw
    apply stored_report_foldl_none user period_key writes hw
    unfold get_stored_report
    rw [h₀]
    rfl

/-- A concrete FinancialHealthReport (parameterised by timestamp) used
to instantiate the report-store theorem. -/
def sampleReport (t : Nat) : FinancialHealthReport :=
  { health_score := ⟨60, 20, 40, 0⟩
    remittance_summary := ⟨0, 0, [], 0, 0⟩
    savings_report := ⟨0, 0, 0, 0, 0, 0, 0⟩
    bill_compliance := ⟨0, 0, 0, 0, 0, 0, 0, 100, 0, 0⟩
    insurance_report := ⟨0, 0, 0, 0, 0, 0, 0⟩
    generated_at := t }

/-- C9 witness: the theorem applied at owner 0, period key 7, two
distinct sample reports, and one store by another owner. -/
theorem C9_report_store_witness :
    get_stored_report
        (store_report (store_report ⟨0, none, none⟩ 0 (sampleReport 1) 7) 0
          (sampleReport 2) 7) 0 7 = some (sampleReport 2) ∧
    get_stored_report
        ([((1 : Nat), (7 : Nat), sampleReport 1)].foldl
          (fun s w => store_report s w.1 w.2.2 w.2.1) ⟨0, none, none⟩)
        0 7 = none := by
  obtain ⟨h₁, h₂⟩ :=
    C9_report_store ⟨0, none, none⟩ 0 7 (sampleReport 1) (sampleReport 2)
  refine ⟨h₁, h₂ ⟨0, none, none⟩ rfl [(1, 7, sampleReport 1)] ?_⟩
  intro w hw
  rw [List.mem_singleton] at hw
  subst hw
  decide

end Remitwise
